import Mathlib

/-!
Verification of `your_client.py`: a JSON-RPC-over-stdio tool-server client
(`TerraformMCP`) and a chat orchestrator (`ChatWithMCP`).

The embedding is shallow: JSON values are an inductive type; the child
process's stdin/stdout pipes become explicit lists threaded through a state
record (`written` requests at the JSON level, `pending` response lines where
`none` stands for a line that `json.loads` rejects); Python exceptions become
an `Except PyError` result; `print` diagnostics become a structured `diags`
log.  The mutual-exclusion lock of the source serializes calls, so the
single-threaded state-passing semantics below is exactly the locked behavior.
-/

/-- JSON values, as produced by Python's `json` module. -/
inductive Json where
  | null
  | bool (b : Bool)
  | num (n : Int)
  | str (s : String)
  | arr (elems : List Json)
  | obj (kvs : List (String × Json))

/-- Python exceptions that the client code can raise. -/
inductive PyError where
  /-- `json.loads` raised on a malformed line. -/
  | jsonDecode
  /-- an attribute access on the wrong type raised, e.g. `.keys()` or `.get`
  on a non-dict, or `.strip()` on `None`. -/
  | attrError
  /-- a `dict[key]` lookup raised `KeyError`. -/
  | keyError
  /-- `dict`-style indexing applied to a non-dict raised `TypeError`. -/
  | typeError
  /-- `readline` found no line: the Python call would block forever; the
  model surfaces this as an error so that state is still observable. -/
  | noLine
  /-- the stubbed model oracle ran out of replies (artifact of the finite
  stub, not of the source). -/
  | modelExhausted
deriving DecidableEq, Repr

/-- Python `.keys()` on a value: the key list when it is a dict, otherwise
`none` (the source would raise `AttributeError`). -/
def Json.objKeys : Json → Option (List String)
  | Json.obj kvs => some (kvs.map Prod.fst)
  | _ => none

/-- Python `dict.get(key)` generalized to any JSON value: `none` when the
value is not an object or the key is missing. -/
def jGet (j : Json) (key : String) : Option Json :=
  match j with
  | Json.obj kvs => kvs.lookup key
  | _ => none

/-- One diagnostic `print` line of `_rpc`, kept structurally. -/
inductive Diag where
  /-- the `>>> RPC method (id=..) params={..}` line: method, id, parameter keys. -/
  | reqLine (method : String) (id : Nat) (paramKeys : List String)
  /-- the `<<< RPC method (id=..) response_keys=[...]` line. -/
  | respLine (method : String) (id : Nat) (responseKeys : List String)

/-- State of one `TerraformMCP` instance together with its child process
pipes.  `_id` is the request counter; `written` is the sequence of request
objects written to the child's stdin (serialization is kept at the JSON
level); `pending` is the sequence of stdout lines not yet consumed, where
`some j` is a line parsing to `j` and `none` a line `json.loads` rejects;
`diags` is the sequence of diagnostic prints. -/
structure MCPState where
  _id : Nat
  written : List Json
  pending : List (Option Json)
  diags : List Diag

/-- The request object `_rpc` builds:
`{"jsonrpc": "2.0", "id": id, "method": method, "params": params}`. -/
def requestJson (id : Nat) (method : String) (params : List (String × Json)) : Json :=
  Json.obj [("jsonrpc", Json.str "2.0"), ("id", Json.num (Int.ofNat id)),
            ("method", Json.str method), ("params", Json.obj params)]

/-- `TerraformMCP.__init__`: counter starts at `0`, nothing written yet;
`pending` is the full future output of the child process. -/
def TerraformMCP.init_state (pending : List (Option Json)) : MCPState :=
  ⟨0, [], pending, []⟩

/-- `TerraformMCP._rpc(method, params)`.  Under the lock: increment `_id`,
write the request line and the `>>>` diagnostic, read one line, parse it
(`jsonDecode` on failure), compute
`parsed.get("result", parsed.get("error", {}))` for the `<<<` diagnostic —
raising `attrError` when `parsed` is not a dict or that value has no
`.keys()` — and return the parsed response unchanged. -/
def TerraformMCP._rpc (st : MCPState) (method : String) (params : List (String × Json)) :
    Except PyError Json × MCPState :=
  let id := st._id + 1
  let req := requestJson id method params
  let st1 : MCPState :=
    ⟨id, st.written ++ [req], st.pending,
     st.diags ++ [Diag.reqLine method id (params.map Prod.fst)]⟩
  match st.pending with
  | [] => (Except.error PyError.noLine, st1)
  | line :: rest =>
    let st2 : MCPState := { st1 with pending := rest }
    match line with
    | none => (Except.error PyError.jsonDecode, st2)
    | some parsed =>
      match parsed with
      | Json.obj kvs =>
        match ((kvs.lookup "result").getD ((kvs.lookup "error").getD (Json.obj []))).objKeys with
        | some ks =>
          (Except.ok parsed, { st2 with diags := st2.diags ++ [Diag.respLine method id ks] })
        | none => (Except.error PyError.attrError, st2)
      | _ => (Except.error PyError.attrError, st2)

/-- `TerraformMCP.initialize`: `self._rpc("initialize", {})` (renamed, the
method's source name is kept in the string). -/
def TerraformMCP.initCall (st : MCPState) : Except PyError Json × MCPState :=
  TerraformMCP._rpc st "initialize" []

/-- `TerraformMCP.list_tools`:
`self._rpc("tools/list", {}).get("result", {}).get("tools", [])`. -/
def TerraformMCP.list_tools (st : MCPState) : Except PyError Json × MCPState :=
  match TerraformMCP._rpc st "tools/list" [] with
  | (Except.error e, st1) => (Except.error e, st1)
  | (Except.ok out, st1) =>
    match out with
    | Json.obj kvs =>
      match (kvs.lookup "result").getD (Json.obj []) with
      | Json.obj rkvs => (Except.ok ((rkvs.lookup "tools").getD (Json.arr [])), st1)
      | _ => (Except.error PyError.attrError, st1)
    | _ => (Except.error PyError.attrError, st1)

/-- `TerraformMCP.call_tool(name, arguments)`:
`self._rpc("tools/call", {"name": name, "arguments": arguments}).get("result")`;
`none` models Python `None` when the response has no `result` key. -/
def TerraformMCP.call_tool (st : MCPState) (name arguments : Json) :
    Except PyError (Option Json) × MCPState :=
  match TerraformMCP._rpc st "tools/call" [("name", name), ("arguments", arguments)] with
  | (Except.error e, st1) => (Except.error e, st1)
  | (Except.ok out, st1) =>
    match out with
    | Json.obj kvs => (Except.ok (kvs.lookup "result"), st1)
    | _ => (Except.error PyError.attrError, st1)

/-- One public client operation, for sequences of calls. -/
inductive ClientOp where
  | opInit
  | opListTools
  | opCallTool (name arguments : Json)

/-- The method string an operation's `_rpc` call uses. -/
def ClientOp.method : ClientOp → String
  | ClientOp.opInit => "initialize"
  | ClientOp.opListTools => "tools/list"
  | ClientOp.opCallTool _ _ => "tools/call"

/-- The params object an operation's `_rpc` call uses. -/
def ClientOp.params : ClientOp → List (String × Json)
  | ClientOp.opInit => []
  | ClientOp.opListTools => []
  | ClientOp.opCallTool name arguments => [("name", name), ("arguments", arguments)]

/-- Run one client operation, keeping only the state (callers of a sequence
may observe or discard the returned values; ids are consumed either way). -/
def applyOp (st : MCPState) : ClientOp → MCPState
  | ClientOp.opInit => (TerraformMCP.initCall st).2
  | ClientOp.opListTools => (TerraformMCP.list_tools st).2
  | ClientOp.opCallTool name arguments => (TerraformMCP.call_tool st name arguments).2

/-- Run a sequence of client operations in order on one instance. -/
def runOps (st : MCPState) : List ClientOp → MCPState
  | [] => st
  | op :: ops => runOps (applyOp st op) ops

/-- The numeric `id` field of a written request object (0 if absent). -/
def reqIdOf (j : Json) : Int :=
  match j with
  | Json.obj kvs =>
    match kvs.lookup "id" with
    | some (Json.num n) => n
    | _ => 0
  | _ => 0

/-!
Chat orchestrator (`ChatWithMCP.run`).  The OpenAI chat API is replaced by a
stub oracle: a list of pre-made model messages consumed one per query, with a
log of the queries issued (the transcript sent and whether the function
declarations were attached, distinguishing the first from the second query of
a turn).  The model's `function_call.arguments` raw text is kept as its
parsed JSON value (`json.loads` of a well-formed stub reply is the identity
under this representation).
-/

/-- Python `str.strip()`: drop leading and trailing whitespace (ASCII
whitespace; Python also strips some further Unicode space characters, which
none of the terminal words use). -/
def pyStrip (s : String) : String :=
  ⟨((s.data.dropWhile Char.isWhitespace).reverse.dropWhile Char.isWhitespace).reverse⟩

/-- Python `str.lower()` (ASCII case mapping). -/
def pyLower (s : String) : String :=
  ⟨s.data.map Char.toLower⟩

/-- One transcript entry of `history`. -/
inductive Msg where
  /-- `{"role": "user", "content": ...}` -/
  | user (content : String)
  /-- `{"role": "assistant", "content": ...}` -/
  | assistant (content : String)
  /-- `{"role": "assistant", "content": None, "function_call": {...}}`;
  `argumentsRaw` is the raw argument text, kept as its JSON parse. -/
  | assistantCall (name : String) (argumentsRaw : Json)
  /-- `{"role": "function", "name": ..., "content": json.dumps(result)}`;
  the dumped result is kept as a JSON value. -/
  | functionResult (name : String) (result : Json)

/-- The model's requested function call: name and (parsed) raw argument text. -/
structure FunctionCall where
  name : String
  arguments : Json

/-- One stubbed model message (`resp.choices[0].message`). -/
structure ModelMsg where
  content : Option String
  function_call : Option FunctionCall

/-- One Tool-Server Client invocation made by the orchestrator. -/
inductive MCPCall where
  | listToolsCall
  | callToolCall (name arguments : Json)

/-- Orchestrator state: the owned client state, the transcript, the stub
model's remaining replies, and observation logs (queries issued with the
transcript sent and the functions flag, client invocations, printed replies). -/
structure ChatState where
  mcp : MCPState
  history : List Msg
  modelReplies : List ModelMsg
  modelQueries : List (List Msg × Bool)
  mcpCalls : List MCPCall
  printed : List String

/-- `self.client.chat.completions.create(...)`: log the query (transcript
sent, whether `functions=self.functions` was attached) and consume the next
stubbed reply. -/
def ChatWithMCP.queryModel (st : ChatState) (withFunctions : Bool) :
    Option ModelMsg × ChatState :=
  let st1 := { st with modelQueries := st.modelQueries ++ [(st.history, withFunctions)] }
  match st1.modelReplies with
  | [] => (none, st1)
  | m :: rest => (some m, { st1 with modelReplies := rest })

/-- The tool dispatch of `ChatWithMCP.run` lines 103–106: `list_tools` by
name, anything else through `call_tool(args["name"], args["arguments"])`.
Returns the result, the client state after the call, and the invocations
actually made (empty when a `KeyError`/`TypeError` fires before the call). -/
def ChatWithMCP.dispatch (mcp : MCPState) (fname : String) (args : Json) :
    Except PyError Json × MCPState × List MCPCall :=
  if fname = "list_tools" then
    ((TerraformMCP.list_tools mcp).1, (TerraformMCP.list_tools mcp).2, [MCPCall.listToolsCall])
  else
    match args with
    | Json.obj kvs =>
      match kvs.lookup "name" with
      | none => (Except.error PyError.keyError, mcp, [])
      | some nm =>
        match kvs.lookup "arguments" with
        | none => (Except.error PyError.keyError, mcp, [])
        | some ag =>
          (Except.map (fun r => r.getD Json.null) (TerraformMCP.call_tool mcp nm ag).1,
           (TerraformMCP.call_tool mcp nm ag).2, [MCPCall.callToolCall nm ag])
    | _ => (Except.error PyError.typeError, mcp, [])

/-- One iteration of the `while True` body after the exit check: append the
user turn, first model query (with functions, auto function-call); on a
function call, dispatch the tool, append the function-call and
function-result turns, make the second model query and print/append its
reply; otherwise print/append the direct reply.  `some e` reports an
uncaught exception at that point (state as already mutated). -/
def ChatWithMCP.step (st0 : ChatState) (user_input : String) :
    ChatState × Option PyError :=
  let st1 := { st0 with history := st0.history ++ [Msg.user user_input] }
  match ChatWithMCP.queryModel st1 true with
  | (none, st2) => (st2, some PyError.modelExhausted)
  | (some msg, st2) =>
    match msg.function_call with
    | some fc =>
      match ChatWithMCP.dispatch st2.mcp fc.name fc.arguments with
      | (r, mcp1, calls) =>
        let st3 := { st2 with mcp := mcp1, mcpCalls := st2.mcpCalls ++ calls }
        match r with
        | Except.error e => (st3, some e)
        | Except.ok result =>
          let st4 := { st3 with history := st3.history ++
              [Msg.assistantCall fc.name fc.arguments, Msg.functionResult fc.name result] }
          match ChatWithMCP.queryModel st4 false with
          | (none, st5) => (st5, some PyError.modelExhausted)
          | (some follow, st5) =>
            match follow.content with
            | none => (st5, some PyError.attrError)
            | some c =>
              (({ st5 with
                  printed := st5.printed ++ [pyStrip c],
                  history := st5.history ++ [Msg.assistant (pyStrip c)] }), none)
    | none =>
      match msg.content with
      | none => (st2, some PyError.attrError)
      | some c =>
        (({ st2 with
            printed := st2.printed ++ [pyStrip c],
            history := st2.history ++ [Msg.assistant (pyStrip c)] }), none)

/-- How `ChatWithMCP.run` ended. -/
inductive RunExit where
  /-- the user typed an exit word and the loop `break`s. -/
  | exited
  /-- the input list ran dry (Python `input()` would raise `EOFError`). -/
  | inputsDry
  /-- an uncaught exception terminated the session. -/
  | errored (e : PyError)

/-- `ChatWithMCP.run`, driven by the list of user input lines: stop when
`user_input.strip().lower() in ("exit", "quit")`, otherwise run one step and
continue unless it raised. -/
def ChatWithMCP.run (st : ChatState) : List String → ChatState × RunExit
  | [] => (st, RunExit.inputsDry)
  | user_input :: rest =>
    if pyLower (pyStrip user_input) = "exit" ∨ pyLower (pyStrip user_input) = "quit" then
      (st, RunExit.exited)
    else
      match ChatWithMCP.step st user_input with
      | (st1, none) => ChatWithMCP.run st1 rest
      | (st1, some e) => (st1, RunExit.errored e)

/-!
Helper lemmas about `_rpc` state evolution, shared by several claims.
-/

/-- Every `_rpc` call — succeeding or raising — bumps `_id` by one and
appends exactly one request object, carrying the bumped id, to the stream. -/
theorem rpc_id_written (st : MCPState) (method : String) (params : List (String × Json)) :
    ((TerraformMCP._rpc st method params).2)._id = st._id + 1 ∧
    ((TerraformMCP._rpc st method params).2).written
      = st.written ++ [requestJson (st._id + 1) method params] := by
  unfold TerraformMCP._rpc
  cases hp : st.pending with
  | nil => simp
  | cons line rest =>
    cases line with
    | none => simp
    | some parsed =>
      cases parsed <;> simp
      case obj kvs =>
        cases hk : ((kvs.lookup "result").getD ((kvs.lookup "error").getD (Json.obj []))).objKeys <;>
          simp

/-- `list_tools` only post-processes the returned value: its client state is
the `_rpc` state. -/
theorem list_tools_state (st : MCPState) :
    (TerraformMCP.list_tools st).2 = (TerraformMCP._rpc st "tools/list" []).2 := by
  unfold TerraformMCP.list_tools
  split
  · next e st1 heq => rw [heq]
  · next out st1 heq =>
    rw [heq]
    cases out <;> simp
    split <;> simp

/-- `call_tool` only post-processes the returned value: its client state is
the `_rpc` state. -/
theorem call_tool_state (st : MCPState) (name arguments : Json) :
    (TerraformMCP.call_tool st name arguments).2
      = (TerraformMCP._rpc st "tools/call" [("name", name), ("arguments", arguments)]).2 := by
  unfold TerraformMCP.call_tool
  split
  · next e st1 heq => rw [heq]
  · next out st1 heq =>
    rw [heq]
    cases out <;> simp

/-- The id field read back from a built request is the id it was built with. -/
theorem reqIdOf_requestJson (id : Nat) (method : String) (params : List (String × Json)) :
    reqIdOf (requestJson id method params) = Int.ofNat id := rfl

/-- Each public operation makes exactly one `_rpc` call: `_id` bumps by one
and exactly one request, with the bumped id and that operation's method and
params, is appended. -/
theorem applyOp_state (st : MCPState) (op : ClientOp) :
    (applyOp st op)._id = st._id + 1 ∧
    (applyOp st op).written
      = st.written ++ [requestJson (st._id + 1) op.method op.params] := by
  cases op with
  | opInit => exact rpc_id_written st "initialize" []
  | opListTools =>
    simpa [applyOp, ClientOp.method, ClientOp.params, list_tools_state]
      using rpc_id_written st "tools/list" []
  | opCallTool name arguments =>
    simpa [applyOp, ClientOp.method, ClientOp.params, call_tool_state]
      using rpc_id_written st "tools/call" [("name", name), ("arguments", arguments)]

/-- Running a sequence of operations appends requests whose ids count up from
the current counter plus one. -/
theorem runOps_written (ops : List ClientOp) : ∀ st : MCPState,
    (runOps st ops).written.map reqIdOf
      = st.written.map reqIdOf ++ (List.range' (st._id + 1) ops.length).map Int.ofNat := by
  induction ops with
  | nil => intro st; simp [runOps]
  | cons op ops ih =>
    intro st
    have h := applyOp_state st op
    rw [runOps, ih (applyOp st op), h.1, h.2]
    simp [List.range'_succ, reqIdOf_requestJson]

/-- C1: for every sequence of N calls of any mix of `initialize`,
`list_tools`, `call_tool` (hence `_rpc`) made in isolation on one
`TerraformMCP` instance, the request ids placed in the written request
objects are exactly 1, 2, ..., N in order of issuance, hence unique and
strictly increasing within that client's lifetime.  (The lock makes the
multi-threaded behavior coincide with this sequential semantics.) -/
theorem c1_request_ids_exact (ops : List ClientOp) (pending : List (Option Json)) :
    (runOps (TerraformMCP.init_state pending) ops).written.map reqIdOf
      = (List.range' 1 ops.length).map Int.ofNat ∧
    ((runOps (TerraformMCP.init_state pending) ops).written.map reqIdOf).Pairwise (· < ·) := by
  have h := runOps_written ops (TerraformMCP.init_state pending)
  have h2 : (runOps (TerraformMCP.init_state pending) ops).written.map reqIdOf
      = (List.range' 1 ops.length).map Int.ofNat := by
    simpa [TerraformMCP.init_state] using h
  refine ⟨h2, ?_⟩
  rw [h2]
  exact List.Pairwise.map Int.ofNat (fun a b hab => Int.ofNat_lt.mpr hab)
    (List.pairwise_lt_range' 1 ops.length)

/-- C10: every `_rpc` call increments the request counter exactly once,
before the write (the written request already carries the bumped id), and
this holds whether the call returns or raises — on a malformed response the
id is still consumed, and the next call's request carries an id exactly one
greater, so ids are never reused even across failed calls. -/
theorem c10_id_consumed_even_on_failure (st : MCPState) (method : String)
    (params : List (String × Json)) (method2 : String) (params2 : List (String × Json)) :
    ((TerraformMCP._rpc st method params).2)._id = st._id + 1 ∧
    ((TerraformMCP._rpc st method params).2).written
      = st.written ++ [requestJson (st._id + 1) method params] ∧
    ((TerraformMCP._rpc (TerraformMCP._rpc st method params).2 method2 params2).2).written
      = st.written ++ [requestJson (st._id + 1) method params,
                       requestJson (st._id + 2) method2 params2] := by
  obtain ⟨h1, h2⟩ := rpc_id_written st method params
  obtain ⟨h1', h2'⟩ := rpc_id_written (TerraformMCP._rpc st method params).2 method2 params2
  refine ⟨h1, h2, ?_⟩
  rw [h2', h2, h1]
  simp

/-- When the next line parses to a JSON object whose `result` field — or,
failing that, `error` field, or failing both the empty object — survives the
diagnostic `.keys()` call, `_rpc` returns that parsed object unchanged. -/
theorem rpc_ok (st : MCPState) (method : String) (params : List (String × Json))
    (kvs : List (String × Json)) (rest : List (Option Json))
    (hp : st.pending = some (Json.obj kvs) :: rest)
    (hdiag : (((kvs.lookup "result").getD ((kvs.lookup "error").getD (Json.obj []))).objKeys).isSome
      = true) :
    (TerraformMCP._rpc st method params).1 = Except.ok (Json.obj kvs) := by
  obtain ⟨ks, hks⟩ := Option.isSome_iff_exists.mp hdiag
  unfold TerraformMCP._rpc
  rw [hp]
  simp [hks]

/-- The echo stub of the round-trip property: read the written request, echo
one line carrying the same id and a result wrapping the request's params
under an `echo` key. -/
def echoStub (req : Json) : Json :=
  Json.obj [("id", (jGet req "id").getD Json.null),
            ("result", Json.obj [("echo", (jGet req "params").getD Json.null)])]

/-- C2: for every method and params, the request serialized and written by
`_rpc`, answered by a stub that reads the written line and echoes back
`{"id": same id, "result": {"echo": params}}`, makes `_rpc` return a parsed
response whose result's `echo` field deep-equals the original params. -/
theorem c2_round_trip (st : MCPState) (method : String) (params : List (String × Json))
    (h : st.pending = [some (echoStub (requestJson (st._id + 1) method params))]) :
    ((TerraformMCP._rpc st method params).2).written
      = st.written ++ [requestJson (st._id + 1) method params] ∧
    (TerraformMCP._rpc st method params).1
      = Except.ok (echoStub (requestJson (st._id + 1) method params)) ∧
    ((TerraformMCP._rpc st method params).1.toOption.bind (fun r => jGet r "result")).bind
        (fun r => jGet r "echo")
      = some (Json.obj params) := by
  obtain ⟨-, hw⟩ := rpc_id_written st method params
  have hok : (TerraformMCP._rpc st method params).1
      = Except.ok (echoStub (requestJson (st._id + 1) method params)) := by
    apply rpc_ok st method params _ [] (by rw [h]; rfl)
    rfl
  refine ⟨hw, hok, ?_⟩
  rw [hok]
  rfl

/-- Witness for C2 at a concrete state, method and params. -/
def c2WitState : MCPState :=
  TerraformMCP.init_state [some (echoStub (requestJson 1 "tools/call" [("a", Json.num 1)]))]

/-- C2 witness: the round-trip property evaluated at a concrete request. -/
theorem c2_round_trip_witness :
    c2WitState.pending
      = [some (echoStub (requestJson (c2WitState._id + 1) "tools/call" [("a", Json.num 1)]))] ∧
    (((TerraformMCP._rpc c2WitState "tools/call" [("a", Json.num 1)]).2).written
      = c2WitState.written ++ [requestJson (c2WitState._id + 1) "tools/call" [("a", Json.num 1)]] ∧
     (TerraformMCP._rpc c2WitState "tools/call" [("a", Json.num 1)]).1
      = Except.ok (echoStub (requestJson (c2WitState._id + 1) "tools/call" [("a", Json.num 1)])) ∧
     ((TerraformMCP._rpc c2WitState "tools/call" [("a", Json.num 1)]).1.toOption.bind
        (fun r => jGet r "result")).bind (fun r => jGet r "echo")
      = some (Json.obj [("a", Json.num 1)])) :=
  ⟨rfl, c2_round_trip c2WitState "tools/call" [("a", Json.num 1)] rfl⟩

/-- C3: for every delivered `tools/list` response whose `result` is an
object (or absent, giving the empty object), `list_tools` returns exactly
the `tools` entry of that result, and the empty array when the key is
absent.  The `hdiag` hypothesis records that the response survives `_rpc`'s
diagnostic `.keys()` call (a response failing it raises instead of
returning, see the C5 analysis). -/
theorem c3_list_tools (st : MCPState) (kvs rkvs : List (String × Json)) (rest : List (Option Json))
    (hp : st.pending = some (Json.obj kvs) :: rest)
    (hres : (kvs.lookup "result").getD (Json.obj []) = Json.obj rkvs)
    (hdiag : (((kvs.lookup "result").getD ((kvs.lookup "error").getD (Json.obj []))).objKeys).isSome
      = true) :
    (TerraformMCP.list_tools st).1 = Except.ok ((rkvs.lookup "tools").getD (Json.arr [])) := by
  have hok := rpc_ok st "tools/list" [] kvs rest hp hdiag
  unfold TerraformMCP.list_tools
  cases hrpc : TerraformMCP._rpc st "tools/list" [] with
  | mk r st1 =>
    rw [hrpc] at hok
    simp at hok
    subst hok
    simp [hres]

/-- Witness response for C3: `{"result": {"tools": ["t1"]}}`. -/
def c3WitResult : List (String × Json) := [("tools", Json.arr [Json.str "t1"])]

/-- Witness response object for C3. -/
def c3WitKvs : List (String × Json) := [("result", Json.obj c3WitResult)]

/-- Witness client state for C3. -/
def c3WitState : MCPState := TerraformMCP.init_state [some (Json.obj c3WitKvs)]

/-- C3 witness: `list_tools` on a concrete delivered response. -/
theorem c3_list_tools_witness :
    c3WitState.pending = some (Json.obj c3WitKvs) :: [] ∧
    (c3WitKvs.lookup "result").getD (Json.obj []) = Json.obj c3WitResult ∧
    (((c3WitKvs.lookup "result").getD ((c3WitKvs.lookup "error").getD (Json.obj []))).objKeys).isSome
      = true ∧
    (TerraformMCP.list_tools c3WitState).1
      = Except.ok ((c3WitResult.lookup "tools").getD (Json.arr [])) :=
  ⟨rfl, rfl, rfl, c3_list_tools c3WitState c3WitKvs c3WitResult [] rfl rfl rfl⟩

/-- C4: for every name, arguments and delivered response surviving the
diagnostic call, `call_tool` issues exactly one `tools/call` request with
params `{name, arguments}` and returns exactly the response's `result`
field, or `none` (Python `None`) when the response has no `result` key,
e.g. an error response. -/
theorem c4_call_tool (st : MCPState) (name arguments : Json) (kvs : List (String × Json))
    (rest : List (Option Json))
    (hp : st.pending = some (Json.obj kvs) :: rest)
    (hdiag : (((kvs.lookup "result").getD ((kvs.lookup "error").getD (Json.obj []))).objKeys).isSome
      = true) :
    (TerraformMCP.call_tool st name arguments).1 = Except.ok (kvs.lookup "result") ∧
    ((TerraformMCP.call_tool st name arguments).2).written
      = st.written ++ [requestJson (st._id + 1) "tools/call"
                        [("name", name), ("arguments", arguments)]] := by
  have hok := rpc_ok st "tools/call" [("name", name), ("arguments", arguments)] kvs rest hp hdiag
  constructor
  · unfold TerraformMCP.call_tool
    cases hrpc : TerraformMCP._rpc st "tools/call" [("name", name), ("arguments", arguments)] with
    | mk r st1 =>
      rw [hrpc] at hok
      simp at hok
      subst hok
      simp
  · rw [call_tool_state]
    exact (rpc_id_written st "tools/call" [("name", name), ("arguments", arguments)]).2

/-- Witness response object for C4: an error response with no `result`. -/
def c4WitKvs : List (String × Json) := [("error", Json.obj [("code", Json.num 1)])]

/-- Witness client state for C4. -/
def c4WitState : MCPState := TerraformMCP.init_state [some (Json.obj c4WitKvs)]

/-- C4 witness: `call_tool` on a concrete error response returns `none` and
writes exactly one `tools/call` request. -/
theorem c4_call_tool_witness :
    c4WitState.pending = some (Json.obj c4WitKvs) :: [] ∧
    (((c4WitKvs.lookup "result").getD ((c4WitKvs.lookup "error").getD (Json.obj []))).objKeys).isSome
      = true ∧
    ((TerraformMCP.call_tool c4WitState (Json.str "t") (Json.obj [])).1
      = Except.ok (c4WitKvs.lookup "result") ∧
     ((TerraformMCP.call_tool c4WitState (Json.str "t") (Json.obj [])).2).written
      = c4WitState.written ++ [requestJson (c4WitState._id + 1) "tools/call"
                                [("name", Json.str "t"), ("arguments", Json.obj [])]]) :=
  ⟨rfl, rfl, c4_call_tool c4WitState (Json.str "t") (Json.obj []) c4WitKvs [] rfl rfl⟩

/-- A well-formed JSON response line on which the claim fails: the `result`
field is a number, so the diagnostic `result.keys()` raises
`AttributeError` and `_rpc` raises instead of returning the parsed object. -/
def c5Response : Json := Json.obj [("result", Json.num 5)]

/-- Client state delivering the C5 counterexample response. -/
def c5State : MCPState := TerraformMCP.init_state [some c5Response]

/-- C5 counterexample: on the well-formed response `{"result": 5}`, `_rpc`
raises `AttributeError` (from `result.keys()` in the diagnostic print) and
does not return the parsed response object. -/
theorem c5_counterexample :
    (TerraformMCP._rpc c5State "tools/list" []).1 = Except.error PyError.attrError ∧
    ¬ (TerraformMCP._rpc c5State "tools/list" []).1 = Except.ok c5Response := by
  constructor
  · rfl
  · intro h
    have h2 : Except.error PyError.attrError = Except.ok c5Response := h
    exact Except.noConfusion h2

/-- C5 amended: for every well-formed JSON response line parsing to an
object whose `result` field — or, when `result` is absent, `error` field, or
the empty object when both are absent — is itself an object, `_rpc` returns
the full parsed response unchanged, regardless of which of `result`, `error`
or `id` it contains and regardless of whether its id equals the request's
id: no demultiplexing or id validation is performed, and a response lacking
both `result` and `error` affects only the diagnostic output. -/
theorem c5_amended (st : MCPState) (method : String) (params : List (String × Json))
    (kvs : List (String × Json)) (rest : List (Option Json))
    (hp : st.pending = some (Json.obj kvs) :: rest)
    (hdiag : (((kvs.lookup "result").getD ((kvs.lookup "error").getD (Json.obj []))).objKeys).isSome
      = true) :
    (TerraformMCP._rpc st method params).1 = Except.ok (Json.obj kvs) :=
  rpc_ok st method params kvs rest hp hdiag

/-- Witness response object for C5 amended: a response lacking both `result`
and `error` and whose id (73) matches no request id. -/
def c5WitKvs : List (String × Json) := [("id", Json.num 73)]

/-- Witness client state for C5 amended. -/
def c5WitState : MCPState := TerraformMCP.init_state [some (Json.obj c5WitKvs)]

/-- C5 amended witness: a response lacking both `result` and `error`, with a
mismatched id, is still returned unchanged. -/
theorem c5_amended_witness :
    c5WitState.pending = some (Json.obj c5WitKvs) :: [] ∧
    (((c5WitKvs.lookup "result").getD ((c5WitKvs.lookup "error").getD (Json.obj []))).objKeys).isSome
      = true ∧
    (TerraformMCP._rpc c5WitState "tools/list" []).1 = Except.ok (Json.obj c5WitKvs) :=
  ⟨rfl, rfl, c5_amended c5WitState "tools/list" [] c5WitKvs [] rfl rfl⟩

/-!
Claims about the chat orchestrator.
-/

/-- A successful `dispatch` records exactly one Tool-Server Client
invocation. -/
theorem dispatch_ok_calls (mcp : MCPState) (fname : String) (args : Json)
    (r : Json) (mcp1 : MCPState) (calls : List MCPCall)
    (h : ChatWithMCP.dispatch mcp fname args = (Except.ok r, mcp1, calls)) :
    calls = [MCPCall.listToolsCall] ∨ ∃ nm ag, calls = [MCPCall.callToolCall nm ag] := by
  unfold ChatWithMCP.dispatch at h
  split at h
  · simp [Prod.ext_iff] at h
    exact Or.inl h.2.2.symm
  · split at h
    · split at h
      · simp at h
      · split at h
        · simp at h
        · simp [Prod.ext_iff] at h
          exact Or.inr ⟨_, _, h.2.2.symm⟩
    · simp at h

/-- C7: any input whose stripped, lowercased form is `exit` or `quit` ends
the loop immediately: the state — transcript, query log, client call log,
prints — is returned untouched and the remaining inputs are not read. -/
theorem c7_exit_words (st : ChatState) (user_input : String) (rest : List String)
    (h : pyLower (pyStrip user_input) = "exit" ∨ pyLower (pyStrip user_input) = "quit") :
    ChatWithMCP.run st (user_input :: rest) = (st, RunExit.exited) := by
  unfold ChatWithMCP.run
  rw [if_pos h]

/-- Witness chat state for C7. -/
def c7WitState : ChatState := ⟨TerraformMCP.init_state [], [], [], [], [], []⟩

/-- C7 witness: the input `"  Quit  "` exits immediately. -/
theorem c7_exit_words_witness :
    (pyLower (pyStrip "  Quit  ") = "exit" ∨ pyLower (pyStrip "  Quit  ") = "quit") ∧
    ChatWithMCP.run c7WitState ["  Quit  ", "hello"] = (c7WitState, RunExit.exited) :=
  ⟨Or.inr rfl, c7_exit_words c7WitState "  Quit  " ["hello"] (Or.inr rfl)⟩

/-- C8: on a turn where the model's reply carries no function call, the
orchestrator makes exactly one model query and zero Tool-Server Client
calls, prints the stripped reply, and appends exactly the user message and
the assistant message to the transcript. -/
theorem c8_direct_reply (st : ChatState) (user_input : String) (m : ModelMsg)
    (rest : List ModelMsg) (c : String)
    (hm : st.modelReplies = m :: rest)
    (hfc : m.function_call = none)
    (hc : m.content = some c) :
    (ChatWithMCP.step st user_input).2 = none ∧
    (ChatWithMCP.step st user_input).1.history
      = st.history ++ [Msg.user user_input, Msg.assistant (pyStrip c)] ∧
    (ChatWithMCP.step st user_input).1.mcpCalls = st.mcpCalls ∧
    (ChatWithMCP.step st user_input).1.mcp = st.mcp ∧
    (ChatWithMCP.step st user_input).1.modelQueries.length = st.modelQueries.length + 1 ∧
    (ChatWithMCP.step st user_input).1.printed = st.printed ++ [pyStrip c] := by
  unfold ChatWithMCP.step ChatWithMCP.queryModel
  simp [hm, hfc, hc]

/-- Witness chat state for C8: the stubbed model answers `" Hello "`. -/
def c8WitState : ChatState :=
  ⟨TerraformMCP.init_state [], [], [⟨some " Hello ", none⟩], [], [], []⟩

/-- C8 witness: a direct-reply turn at a concrete state. -/
theorem c8_direct_reply_witness :
    c8WitState.modelReplies = (⟨some " Hello ", none⟩ : ModelMsg) :: [] ∧
    (⟨some " Hello ", none⟩ : ModelMsg).function_call = none ∧
    (⟨some " Hello ", none⟩ : ModelMsg).content = some " Hello " ∧
    ((ChatWithMCP.step c8WitState "hi").2 = none ∧
     (ChatWithMCP.step c8WitState "hi").1.history
      = c8WitState.history ++ [Msg.user "hi", Msg.assistant (pyStrip " Hello ")] ∧
     (ChatWithMCP.step c8WitState "hi").1.mcpCalls = c8WitState.mcpCalls ∧
     (ChatWithMCP.step c8WitState "hi").1.mcp = c8WitState.mcp ∧
     (ChatWithMCP.step c8WitState "hi").1.modelQueries.length
      = c8WitState.modelQueries.length + 1 ∧
     (ChatWithMCP.step c8WitState "hi").1.printed = c8WitState.printed ++ [pyStrip " Hello "]) :=
  ⟨rfl, rfl, rfl, c8_direct_reply c8WitState "hi" ⟨some " Hello ", none⟩ [] " Hello " rfl rfl rfl⟩

/-- C6: on a turn where the model's first reply carries a function call and
the dispatched tool call succeeds, the orchestrator makes exactly one
Tool-Server Client invocation and exactly two model queries, and appends to
the transcript, in order: the user turn, an assistant turn recording the
function-call name and raw argument text with no content, a function-result
turn carrying the (JSON-encoded) result, and a final assistant turn with the
second query's stripped reply — whatever function call the second reply may
carry is ignored, so no second tool call can be chained in the turn. -/
theorem c6_funcall_turn (st : ChatState) (user_input : String)
    (m1 m2 : ModelMsg) (rest : List ModelMsg) (fc : FunctionCall)
    (result : Json) (mcp1 : MCPState) (calls : List MCPCall) (c : String)
    (hm : st.modelReplies = m1 :: m2 :: rest)
    (hfc : m1.function_call = some fc)
    (hdisp : ChatWithMCP.dispatch st.mcp fc.name fc.arguments = (Except.ok result, mcp1, calls))
    (hc : m2.content = some c) :
    (ChatWithMCP.step st user_input).2 = none ∧
    (ChatWithMCP.step st user_input).1.history
      = st.history ++ [Msg.user user_input, Msg.assistantCall fc.name fc.arguments,
                       Msg.functionResult fc.name result, Msg.assistant (pyStrip c)] ∧
    (ChatWithMCP.step st user_input).1.mcpCalls.length = st.mcpCalls.length + 1 ∧
    (ChatWithMCP.step st user_input).1.modelQueries.length = st.modelQueries.length + 2 ∧
    (ChatWithMCP.step st user_input).1.printed = st.printed ++ [pyStrip c] := by
  have hlen : calls.length = 1 := by
    rcases dispatch_ok_calls st.mcp fc.name fc.arguments result mcp1 calls hdisp with h | ⟨nm, ag, h⟩ <;>
      simp [h]
  unfold ChatWithMCP.step ChatWithMCP.queryModel
  simp [hm, hfc, hdisp, hc, hlen]

/-- Witness client state for C6: one pending `tools/list` response. -/
def c6WitMcp : MCPState :=
  TerraformMCP.init_state [some (Json.obj [("result", Json.obj [("tools", Json.arr [Json.str "t1"])])])]

/-- Witness function call for C6. -/
def c6WitFc : FunctionCall := ⟨"list_tools", Json.obj []⟩

/-- Witness chat state for C6: the stubbed model first requests
`list_tools`, then answers `" All good "`. -/
def c6WitState : ChatState :=
  ⟨c6WitMcp, [], [⟨none, some c6WitFc⟩, ⟨some " All good ", none⟩], [], [], []⟩

/-- C6 witness: a full function-call turn at a concrete state. -/
theorem c6_funcall_turn_witness :
    c6WitState.modelReplies
      = (⟨none, some c6WitFc⟩ : ModelMsg) :: (⟨some " All good ", none⟩ : ModelMsg) :: [] ∧
    (⟨none, some c6WitFc⟩ : ModelMsg).function_call = some c6WitFc ∧
    ChatWithMCP.dispatch c6WitState.mcp c6WitFc.name c6WitFc.arguments
      = (Except.ok (Json.arr [Json.str "t1"]), (TerraformMCP.list_tools c6WitMcp).2,
         [MCPCall.listToolsCall]) ∧
    (⟨some " All good ", none⟩ : ModelMsg).content = some " All good " ∧
    ((ChatWithMCP.step c6WitState "list the tools").2 = none ∧
     (ChatWithMCP.step c6WitState "list the tools").1.history
      = c6WitState.history ++ [Msg.user "list the tools",
                               Msg.assistantCall c6WitFc.name c6WitFc.arguments,
                               Msg.functionResult c6WitFc.name (Json.arr [Json.str "t1"]),
                               Msg.assistant (pyStrip " All good ")] ∧
     (ChatWithMCP.step c6WitState "list the tools").1.mcpCalls.length
      = c6WitState.mcpCalls.length + 1 ∧
     (ChatWithMCP.step c6WitState "list the tools").1.modelQueries.length
      = c6WitState.modelQueries.length + 2 ∧
     (ChatWithMCP.step c6WitState "list the tools").1.printed
      = c6WitState.printed ++ [pyStrip " All good "]) :=
  ⟨rfl, rfl, rfl, rfl,
   c6_funcall_turn c6WitState "list the tools" ⟨none, some c6WitFc⟩ ⟨some " All good ", none⟩ []
     c6WitFc (Json.arr [Json.str "t1"]) ((TerraformMCP.list_tools c6WitMcp).2)
     [MCPCall.listToolsCall] " All good " rfl rfl rfl rfl⟩

/-- C9 (implicit): when the model's function-call name is anything other
than exactly `"list_tools"`, the orchestrator dispatches to the client's
`call_tool` with the decoded arguments' `name` and `arguments` entries
(whenever both keys are present, a `callToolCall` with exactly those values
is recorded and the client state advances through `call_tool`); when either
key is missing, the `KeyError` terminates the session before any
function-call or function-result turn is appended — only the user turn of
that round remains — with no client call made. -/
theorem c9_non_list_tools (st : ChatState) (user_input : String)
    (m1 : ModelMsg) (rest : List ModelMsg) (fc : FunctionCall) (kvs : List (String × Json))
    (hm : st.modelReplies = m1 :: rest)
    (hfc : m1.function_call = some fc)
    (hname : fc.name ≠ "list_tools")
    (hargs : fc.arguments = Json.obj kvs) :
    (∀ nm ag, kvs.lookup "name" = some nm → kvs.lookup "arguments" = some ag →
      (ChatWithMCP.step st user_input).1.mcpCalls
        = st.mcpCalls ++ [MCPCall.callToolCall nm ag] ∧
      (ChatWithMCP.step st user_input).1.mcp = (TerraformMCP.call_tool st.mcp nm ag).2) ∧
    ((kvs.lookup "name" = none ∨ kvs.lookup "arguments" = none) →
      (ChatWithMCP.step st user_input).2 = some PyError.keyError ∧
      (ChatWithMCP.step st user_input).1.history = st.history ++ [Msg.user user_input] ∧
      (ChatWithMCP.step st user_input).1.mcpCalls = st.mcpCalls ∧
      ∀ more, ¬ (pyLower (pyStrip user_input) = "exit" ∨ pyLower (pyStrip user_input) = "quit") →
        ChatWithMCP.run st (user_input :: more)
          = ((ChatWithMCP.step st user_input).1, RunExit.errored PyError.keyError)) := by
  constructor
  · intro nm ag hnm hag
    unfold ChatWithMCP.step ChatWithMCP.queryModel ChatWithMCP.dispatch
    simp [hm, hfc, hargs, hname, hnm, hag]
    cases hct : (TerraformMCP.call_tool st.mcp nm ag).1 with
    | error e => simp [Except.map]
    | ok r =>
      simp [Except.map]
      cases rest with
      | nil => simp
      | cons m2 rest2 =>
        simp
        cases hc2 : m2.content with
        | none => simp
        | some c => simp
  · intro hmiss
    have hstep : ChatWithMCP.step st user_input
        = ({ st with
             history := st.history ++ [Msg.user user_input],
             modelReplies := rest,
             modelQueries := st.modelQueries ++ [(st.history ++ [Msg.user user_input], true)] },
           some PyError.keyError) := by
      unfold ChatWithMCP.step ChatWithMCP.queryModel ChatWithMCP.dispatch
      rcases hmiss with hnm | hag
      · simp [hm, hfc, hargs, hname, hnm]
      · cases hnm : kvs.lookup "name" with
        | none => simp [hm, hfc, hargs, hname, hnm]
        | some nm => simp [hm, hfc, hargs, hname, hnm, hag]
    refine ⟨by rw [hstep], by rw [hstep], by rw [hstep], ?_⟩
    intro more hnotexit
    unfold ChatWithMCP.run
    rw [if_neg hnotexit, hstep]

/-- Witness client state for the C9 dispatch part. -/
def c9WitMcpA : MCPState := TerraformMCP.init_state [some (Json.obj [("result", Json.obj [])])]

/-- Witness function call with a misspelled name and both argument keys. -/
def c9WitFcA : FunctionCall :=
  ⟨"frobnicate", Json.obj [("name", Json.str "t"), ("arguments", Json.obj [])]⟩

/-- Witness chat state for the C9 dispatch part. -/
def c9WitStateA : ChatState := ⟨c9WitMcpA, [], [⟨none, some c9WitFcA⟩], [], [], []⟩

/-- Witness function call missing the `name` key. -/
def c9WitFcB : FunctionCall := ⟨"call_tool", Json.obj [("arguments", Json.obj [])]⟩

/-- Witness chat state for the C9 key-error part. -/
def c9WitStateB : ChatState :=
  ⟨TerraformMCP.init_state [], [], [⟨none, some c9WitFcB⟩], [], [], []⟩

/-- C9 witness: a misspelled tool name dispatches to `call_tool`, and a
missing `name` key raises `KeyError` leaving only the user turn appended. -/
theorem c9_non_list_tools_witness :
    (c9WitStateA.modelReplies = (⟨none, some c9WitFcA⟩ : ModelMsg) :: [] ∧
     (⟨none, some c9WitFcA⟩ : ModelMsg).function_call = some c9WitFcA ∧
     c9WitFcA.name ≠ "list_tools" ∧
     c9WitFcA.arguments = Json.obj [("name", Json.str "t"), ("arguments", Json.obj [])] ∧
     ([("name", Json.str "t"), ("arguments", Json.obj [])] : List (String × Json)).lookup "name"
       = some (Json.str "t") ∧
     ((ChatWithMCP.step c9WitStateA "go").1.mcpCalls
        = c9WitStateA.mcpCalls ++ [MCPCall.callToolCall (Json.str "t") (Json.obj [])] ∧
      (ChatWithMCP.step c9WitStateA "go").1.mcp
        = (TerraformMCP.call_tool c9WitStateA.mcp (Json.str "t") (Json.obj [])).2)) ∧
    (c9WitStateB.modelReplies = (⟨none, some c9WitFcB⟩ : ModelMsg) :: [] ∧
     c9WitFcB.name ≠ "list_tools" ∧
     ([("arguments", Json.obj [])] : List (String × Json)).lookup "name" = none ∧
     ((ChatWithMCP.step c9WitStateB "go").2 = some PyError.keyError ∧
      (ChatWithMCP.step c9WitStateB "go").1.history = c9WitStateB.history ++ [Msg.user "go"] ∧
      (ChatWithMCP.step c9WitStateB "go").1.mcpCalls = c9WitStateB.mcpCalls ∧
      ChatWithMCP.run c9WitStateB ["go", "x"]
        = ((ChatWithMCP.step c9WitStateB "go").1, RunExit.errored PyError.keyError))) :=
  ⟨⟨rfl, rfl, by decide, rfl, rfl,
    (c9_non_list_tools c9WitStateA "go" ⟨none, some c9WitFcA⟩ [] c9WitFcA
        [("name", Json.str "t"), ("arguments", Json.obj [])] rfl rfl (by decide) rfl).1
      (Json.str "t") (Json.obj []) rfl rfl⟩,
   ⟨rfl, by decide, rfl,
    by
      have h := (c9_non_list_tools c9WitStateB "go" ⟨none, some c9WitFcB⟩ [] c9WitFcB
          [("arguments", Json.obj [])] rfl rfl (by decide) rfl).2 (Or.inl rfl)
      exact ⟨h.1, h.2.1, h.2.2.1, h.2.2.2 ["x"] (by decide)⟩⟩⟩
